import Mathlib

/-!
Verification of the adaptive interaction & rendering-quality subsystem of the
`dinesh-portfolio-mvp` repository.

The TypeScript sources are shallowly embedded: JavaScript numbers are modelled
as real numbers (exact arithmetic), mutable Zustand store updates become pure
state-transformer functions, and the linear-congruential generator state is an
integer.  Each embedded definition mirrors one exported function of the
repository; the file/namespace correspondence is noted above every group.
-/

open scoped Classical

noncomputable section

namespace Portfolio

/-! ### Quality tier table
Source: `src/components/sections/Hero/utils/qualityTiers.ts` -/

/-- `QualityTier` enum: LOW | MEDIUM | HIGH. -/
inductive QualityTier where
  | LOW
  | MEDIUM
  | HIGH
deriving DecidableEq

/-- `QualityConfig` interface: particle budget and render parameters per tier. -/
structure QualityConfig where
  particles : ℕ
  renderScale : ℝ
  dprCapMobile : ℝ
  dprCapDesktop : ℝ
  targetFpsMid : ℝ
  targetFpsLow : ℝ

/-- `QUALITY_CONFIG` record mapping each tier to its configuration. -/
def QUALITY_CONFIG : QualityTier → QualityConfig
  | .LOW => { particles := 5000, renderScale := 0.8, dprCapMobile := 1.5,
              dprCapDesktop := 2.0, targetFpsMid := 45, targetFpsLow := 30 }
  | .MEDIUM => { particles := 20000, renderScale := 0.9, dprCapMobile := 1.5,
                 dprCapDesktop := 2.0, targetFpsMid := 45, targetFpsLow := 30 }
  | .HIGH => { particles := 50000, renderScale := 1.0, dprCapMobile := 1.5,
               dprCapDesktop := 2.0, targetFpsMid := 45, targetFpsLow := 30 }

/-- `getQualityConfig(tier)` returns `QUALITY_CONFIG[tier]`. -/
def getQualityConfig (tier : QualityTier) : QualityConfig :=
  QUALITY_CONFIG tier

/-- `clampDpr(dpr, isMobile)` clamps the device pixel ratio to the
mobile (1.5) or desktop (2.0) cap taken from the LOW tier config. -/
def clampDpr (dpr : ℝ) (isMobile : Bool) : ℝ :=
  let maxDpr := if isMobile then (QUALITY_CONFIG .LOW).dprCapMobile
                else (QUALITY_CONFIG .LOW).dprCapDesktop
  min dpr maxDpr

/-! ### Device capability evaluator, committed variant
Source: `src/components/sections/Hero/utils/deviceCaps.ts` -/

/-- `DeviceCaps` result record of `evaluateDeviceCaps`. -/
structure DeviceCaps where
  isWebGLAvailable : Bool
  webglVersion : ℕ
  reason : Option String
  isMobile : Bool
  dpr : ℝ
  clampedDpr : ℝ
  fpsEstimate : Option ℝ
  tier : QualityTier
  config : QualityConfig

/-- Ambient browser environment consumed by `evaluateDeviceCaps`: the results
of `isBrowser()`, `isMobileUA()`, `window.devicePixelRatio`,
`detectWebGLVersion()` and `benchmarkFps()`, which depend on the host and are
inputs to the embedded evaluator. -/
structure BrowserEnv where
  isBrowser : Bool
  isMobileUA : Bool
  devicePixelRatio : ℝ
  webglAvailable : Bool
  webglVersion : ℕ
  webglReason : Option String
  benchFps : ℝ

namespace DeviceCapsSrc

/-- `decideTier(fps, isMobile)` of `utils/deviceCaps.ts`: mobile `fps >= 50`
and `fps >= 35` both give MEDIUM, below 35 LOW; desktop `>= 55` HIGH,
`>= 40` MEDIUM, below LOW. -/
def decideTier (fps : ℝ) (isMobile : Bool) : QualityTier :=
  if isMobile then
    if fps ≥ 50 then QualityTier.MEDIUM
    else if fps ≥ 35 then QualityTier.MEDIUM
    else QualityTier.LOW
  else
    if fps ≥ 55 then QualityTier.HIGH
    else if fps ≥ 40 then QualityTier.MEDIUM
    else QualityTier.LOW

/-- `evaluateDeviceCaps()` of `utils/deviceCaps.ts` over an explicit browser
environment.  `window.devicePixelRatio || 1` coalesces the falsy value `0`
to `1`; `webglResult.reason || 'WebGL detection failed'` coalesces a missing
or empty reason string. -/
def evaluateDeviceCaps (env : BrowserEnv) : DeviceCaps :=
  if ¬ env.isBrowser then
    { isWebGLAvailable := false
      webglVersion := 0
      reason := some "Server-side rendering environment"
      isMobile := false
      dpr := 1
      clampedDpr := 1
      fpsEstimate := some 0
      tier := QualityTier.LOW
      config := getQualityConfig QualityTier.LOW }
  else
    let isMobile := env.isMobileUA
    let dpr := if env.devicePixelRatio = 0 then 1 else env.devicePixelRatio
    let clampedDpr := clampDpr dpr isMobile
    if ¬ env.webglAvailable then
      { isWebGLAvailable := false
        webglVersion := env.webglVersion
        reason := some (match env.webglReason with
          | some r => if r = "" then "WebGL detection failed" else r
          | none => "WebGL detection failed")
        isMobile := isMobile
        dpr := dpr
        clampedDpr := clampedDpr
        fpsEstimate := some 0
        tier := QualityTier.LOW
        config := getQualityConfig QualityTier.LOW }
    else
      let fpsEstimate := env.benchFps
      let tier := decideTier fpsEstimate isMobile
      { isWebGLAvailable := true
        webglVersion := env.webglVersion
        reason := none
        isMobile := isMobile
        dpr := dpr
        clampedDpr := clampedDpr
        fpsEstimate := some fpsEstimate
        tier := tier
        config := getQualityConfig tier }

end DeviceCapsSrc

/-! ### Device capability evaluator, exploratory variant
Source: `src/unnamed/part_003` (a second revision of
`src/components/sections/Hero/utils/deviceCaps.ts`) -/

namespace DeviceCapsAlt

/-- `decideTier(fps, isMobile)` of the `part_003` variant: mobile `fps >= 50`
gives MEDIUM, below 50 LOW; desktop thresholds identical to the committed
variant. -/
def decideTier (fps : ℝ) (isMobile : Bool) : QualityTier :=
  if isMobile then
    if fps ≥ 50 then QualityTier.MEDIUM
    else QualityTier.LOW
  else
    if fps ≥ 55 then QualityTier.HIGH
    else if fps ≥ 40 then QualityTier.MEDIUM
    else QualityTier.LOW

/-- `evaluateDeviceCaps()` of the `part_003` variant; its SSR branch and
structure are identical to the committed variant, only the benchmark
internals (not modelled; provided by `BrowserEnv`) differ. -/
def evaluateDeviceCaps (env : BrowserEnv) : DeviceCaps :=
  if ¬ env.isBrowser then
    { isWebGLAvailable := false
      webglVersion := 0
      reason := some "Server-side rendering environment"
      isMobile := false
      dpr := 1
      clampedDpr := 1
      fpsEstimate := some 0
      tier := QualityTier.LOW
      config := getQualityConfig QualityTier.LOW }
  else
    let isMobile := env.isMobileUA
    let dpr := if env.devicePixelRatio = 0 then 1 else env.devicePixelRatio
    let clampedDpr := clampDpr dpr isMobile
    if ¬ env.webglAvailable then
      { isWebGLAvailable := false
        webglVersion := env.webglVersion
        reason := some (match env.webglReason with
          | some r => if r = "" then "WebGL detection failed" else r
          | none => "WebGL detection failed")
        isMobile := isMobile
        dpr := dpr
        clampedDpr := clampedDpr
        fpsEstimate := some 0
        tier := QualityTier.LOW
        config := getQualityConfig QualityTier.LOW }
    else
      let fpsEstimate := env.benchFps
      let tier := decideTier fpsEstimate isMobile
      { isWebGLAvailable := true
        webglVersion := env.webglVersion
        reason := none
        isMobile := isMobile
        dpr := dpr
        clampedDpr := clampedDpr
        fpsEstimate := some fpsEstimate
        tier := tier
        config := getQualityConfig tier }

end DeviceCapsAlt

/-- A browser environment with no window/document: every probe field takes the
value the real probes report outside a browser. -/
def ssrEnv : BrowserEnv :=
  { isBrowser := false
    isMobileUA := false
    devicePixelRatio := 1
    webglAvailable := false
    webglVersion := 0
    webglReason := none
    benchFps := 0 }

/-- C1 counterexample: at `fps = 40` on mobile the committed `decideTier`
variant returns MEDIUM although `40 < 50`, so "LOW exactly when fps < 50"
fails for that variant. -/
theorem decideTier_mobile_low_boundary_counterexample :
    DeviceCapsSrc.decideTier 40 true = QualityTier.MEDIUM ∧
      DeviceCapsSrc.decideTier 40 true ≠ QualityTier.LOW ∧ (40 : ℝ) < 50 := by
  have h50 : ¬ ((40 : ℝ) ≥ 50) := by norm_num
  have h35 : (40 : ℝ) ≥ 35 := by norm_num
  refine ⟨?_, ?_, by norm_num⟩ <;>
    simp [DeviceCapsSrc.decideTier, h50, h35]

/-- C1 (amended): neither `decideTier` variant ever returns HIGH on mobile;
the `part_003` variant returns MEDIUM exactly when `fps ≥ 50` and LOW exactly
when `fps < 50`, while the committed variant's mobile MEDIUM/LOW split sits at
`fps = 35`. -/
theorem decideTier_mobile_amended (fps : ℝ) :
    (DeviceCapsSrc.decideTier fps true ≠ QualityTier.HIGH ∧
      (DeviceCapsSrc.decideTier fps true = QualityTier.MEDIUM ↔ 35 ≤ fps) ∧
      (DeviceCapsSrc.decideTier fps true = QualityTier.LOW ↔ fps < 35)) ∧
    (DeviceCapsAlt.decideTier fps true ≠ QualityTier.HIGH ∧
      (DeviceCapsAlt.decideTier fps true = QualityTier.MEDIUM ↔ 50 ≤ fps) ∧
      (DeviceCapsAlt.decideTier fps true = QualityTier.LOW ↔ fps < 50)) := by
  unfold DeviceCapsSrc.decideTier DeviceCapsAlt.decideTier
  rcases lt_or_le fps 35 with h35 | h35
  · have h35' : ¬ fps ≥ 35 := not_le.mpr h35
    have h50' : ¬ fps ≥ 50 := not_le.mpr (by linarith)
    simp [h35', h50', h35, not_le.mpr h35, (by linarith : fps < 50)]
  · rcases lt_or_le fps 50 with h50 | h50
    · have h50' : ¬ fps ≥ 50 := not_le.mpr h50
      simp [h35, h50', h50, not_lt.mpr h35, not_le.mpr h50]
    · simp [ge_iff_le.mpr h35, ge_iff_le.mpr h50, h35, h50,
        not_lt.mpr h35, not_lt.mpr h50]

/-- C7: on desktop both `decideTier` variants return HIGH exactly when
`fps ≥ 55`, MEDIUM exactly when `40 ≤ fps < 55`, and LOW exactly when
`fps < 40`; boundary values land on the upper branch. -/
theorem decideTier_desktop_thresholds (fps : ℝ) :
    ((DeviceCapsSrc.decideTier fps false = QualityTier.HIGH ↔ 55 ≤ fps) ∧
      (DeviceCapsSrc.decideTier fps false = QualityTier.MEDIUM ↔
        40 ≤ fps ∧ fps < 55) ∧
      (DeviceCapsSrc.decideTier fps false = QualityTier.LOW ↔ fps < 40)) ∧
    ((DeviceCapsAlt.decideTier fps false = QualityTier.HIGH ↔ 55 ≤ fps) ∧
      (DeviceCapsAlt.decideTier fps false = QualityTier.MEDIUM ↔
        40 ≤ fps ∧ fps < 55) ∧
      (DeviceCapsAlt.decideTier fps false = QualityTier.LOW ↔ fps < 40)) ∧
    DeviceCapsSrc.decideTier 55 false = QualityTier.HIGH ∧
    DeviceCapsSrc.decideTier 40 false = QualityTier.MEDIUM ∧
    DeviceCapsAlt.decideTier 55 false = QualityTier.HIGH ∧
    DeviceCapsAlt.decideTier 40 false = QualityTier.MEDIUM := by
  unfold DeviceCapsSrc.decideTier DeviceCapsAlt.decideTier
  refine ⟨?_, ?_, by norm_num, by norm_num, by norm_num, by norm_num⟩ <;>
  · rcases lt_or_le fps 40 with h40 | h40
    · have h40' : ¬ fps ≥ 40 := not_le.mpr h40
      have h55' : ¬ fps ≥ 55 := not_le.mpr (by linarith)
      simp [h40', h55', h40, not_le.mpr h40]
    · rcases lt_or_le fps 55 with h55 | h55
      · have h55' : ¬ fps ≥ 55 := not_le.mpr h55
        simp [ge_iff_le.mpr h40, h55', h40, h55, not_lt.mpr h40,
          not_le.mpr h55]
      · simp [ge_iff_le.mpr h40, ge_iff_le.mpr h55, not_lt.mpr h40,
          not_lt.mpr h55, h55]

/-- C8 counterexample: in a non-interactive environment the evaluator's
reason string is `"Server-side rendering environment"`, not the claimed
`"non-interactive environment"`. -/
theorem evaluateDeviceCaps_ssr_reason_counterexample :
    (DeviceCapsSrc.evaluateDeviceCaps ssrEnv).reason =
        some "Server-side rendering environment" ∧
      (DeviceCapsSrc.evaluateDeviceCaps ssrEnv).reason ≠
        some "non-interactive environment" ∧
      (DeviceCapsAlt.evaluateDeviceCaps ssrEnv).reason ≠
        some "non-interactive environment" := by
  refine ⟨?_, ?_, ?_⟩ <;>
    simp [DeviceCapsSrc.evaluateDeviceCaps, DeviceCapsAlt.evaluateDeviceCaps,
      ssrEnv]

/-- C8 (amended): invoked in any environment without a browser window/document,
both `evaluateDeviceCaps` variants return (totally, without failure) rendering
unavailable, version 0, LOW tier with the LOW config, dpr 1, clamped dpr 1,
fps estimate 0, and the reason string "Server-side rendering environment". -/
theorem evaluateDeviceCaps_ssr_defaults (env : BrowserEnv)
    (h : env.isBrowser = false) :
    DeviceCapsSrc.evaluateDeviceCaps env =
      { isWebGLAvailable := false
        webglVersion := 0
        reason := some "Server-side rendering environment"
        isMobile := false
        dpr := 1
        clampedDpr := 1
        fpsEstimate := some 0
        tier := QualityTier.LOW
        config := getQualityConfig QualityTier.LOW } ∧
    DeviceCapsAlt.evaluateDeviceCaps env =
      { isWebGLAvailable := false
        webglVersion := 0
        reason := some "Server-side rendering environment"
        isMobile := false
        dpr := 1
        clampedDpr := 1
        fpsEstimate := some 0
        tier := QualityTier.LOW
        config := getQualityConfig QualityTier.LOW } := by
  constructor <;>
    simp [DeviceCapsSrc.evaluateDeviceCaps, DeviceCapsAlt.evaluateDeviceCaps, h]

/-- C8 witness: the amended SSR-defaults theorem applied to the concrete
non-browser environment `ssrEnv`. -/
theorem evaluateDeviceCaps_ssr_defaults_witness :
    DeviceCapsSrc.evaluateDeviceCaps ssrEnv =
      { isWebGLAvailable := false
        webglVersion := 0
        reason := some "Server-side rendering environment"
        isMobile := false
        dpr := 1
        clampedDpr := 1
        fpsEstimate := some 0
        tier := QualityTier.LOW
        config := getQualityConfig QualityTier.LOW } ∧
    DeviceCapsAlt.evaluateDeviceCaps ssrEnv =
      { isWebGLAvailable := false
        webglVersion := 0
        reason := some "Server-side rendering environment"
        isMobile := false
        dpr := 1
        clampedDpr := 1
        fpsEstimate := some 0
        tier := QualityTier.LOW
        config := getQualityConfig QualityTier.LOW } :=
  evaluateDeviceCaps_ssr_defaults ssrEnv rfl

/-! ### Angle wrapping
Two implementations exist: `wrapTheta` in
`src/components/sections/Hero/utils/physics.ts` (loop guards `> π` and
`<= -π`, range `(-π, π]`) and a local copy in
`src/components/sections/Hero/state/interactionStore.ts` (loop guards `> π`
and `< -π`, range `[-π, π]`).  Each while-loop is embedded as a
well-founded recursion whose measure counts the remaining 2π steps. -/

/-- Measure decrease for the subtract-2π loop. -/
lemma wrapDown_measure_decreases (x : ℝ) (h : Real.pi < x) :
    Nat.ceil ((x - 2 * Real.pi - Real.pi) / (2 * Real.pi) + 1) <
      Nat.ceil ((x - Real.pi) / (2 * Real.pi) + 1) := by
  have h2 : (0 : ℝ) < 2 * Real.pi := by positivity
  have key : (x - 2 * Real.pi - Real.pi) / (2 * Real.pi) + 1 =
      (x - Real.pi) / (2 * Real.pi) := by
    field_simp
    ring
  have ht : 0 ≤ (x - Real.pi) / (2 * Real.pi) :=
    div_nonneg (by linarith) h2.le
  rw [key, Nat.ceil_add_one ht]
  exact Nat.lt_succ_self _

/-- Measure decrease for the add-2π loop. -/
lemma wrapUp_measure_decreases (x : ℝ) (h : x ≤ -Real.pi) :
    Nat.ceil ((-Real.pi - (x + 2 * Real.pi)) / (2 * Real.pi) + 1) <
      Nat.ceil ((-Real.pi - x) / (2 * Real.pi) + 1) := by
  have h2 : (0 : ℝ) < 2 * Real.pi := by positivity
  have key : (-Real.pi - (x + 2 * Real.pi)) / (2 * Real.pi) + 1 =
      (-Real.pi - x) / (2 * Real.pi) := by
    field_simp
    ring
  have ht : 0 ≤ (-Real.pi - x) / (2 * Real.pi) :=
    div_nonneg (by linarith) h2.le
  rw [key, Nat.ceil_add_one ht]
  exact Nat.lt_succ_self _

namespace Physics

/-- First while-loop of the physics `wrapTheta`:
`while (wrapped > Math.PI) wrapped -= 2 * Math.PI`. -/
def wrapDown (x : ℝ) : ℝ :=
  if h : x > Real.pi then wrapDown (x - 2 * Real.pi) else x
termination_by Nat.ceil ((x - Real.pi) / (2 * Real.pi) + 1)
decreasing_by exact wrapDown_measure_decreases x h

/-- Second while-loop of the physics `wrapTheta`:
`while (wrapped <= -Math.PI) wrapped += 2 * Math.PI`. -/
def wrapUp (x : ℝ) : ℝ :=
  if h : x ≤ -Real.pi then wrapUp (x + 2 * Real.pi) else x
termination_by Nat.ceil ((-Real.pi - x) / (2 * Real.pi) + 1)
decreasing_by exact wrapUp_measure_decreases x h

/-- `wrapTheta(theta)` of `utils/physics.ts`: both loops in sequence. -/
def wrapTheta (theta : ℝ) : ℝ :=
  wrapUp (wrapDown theta)

end Physics

namespace Interaction

/-- First while-loop of the interaction-store local `wrapTheta`
(identical to the physics one). -/
def wrapDown (x : ℝ) : ℝ :=
  if h : x > Real.pi then wrapDown (x - 2 * Real.pi) else x
termination_by Nat.ceil ((x - Real.pi) / (2 * Real.pi) + 1)
decreasing_by exact wrapDown_measure_decreases x h

/-- Second while-loop of the interaction-store local `wrapTheta`:
`while (wrapped < -Math.PI) wrapped += 2 * Math.PI` — strict guard, unlike
the physics version. -/
def wrapUp (x : ℝ) : ℝ :=
  if h : x < -Real.pi then wrapUp (x + 2 * Real.pi) else x
termination_by Nat.ceil ((-Real.pi - x) / (2 * Real.pi) + 1)
decreasing_by exact wrapUp_measure_decreases x h.le

/-- The interaction store's local `wrapTheta`. -/
def wrapTheta (theta : ℝ) : ℝ :=
  wrapUp (wrapDown theta)

end Interaction

/-- The physics subtract loop never stops above π. -/
lemma wrapDown_le_physics (x : ℝ) : Physics.wrapDown x ≤ Real.pi := by
  unfold Physics.wrapDown
  split
  · exact wrapDown_le_physics (x - 2 * Real.pi)
  · next h => exact not_lt.mp h
termination_by Nat.ceil ((x - Real.pi) / (2 * Real.pi) + 1)
decreasing_by exact wrapDown_measure_decreases x (by assumption)

/-- The physics subtract loop changes its input by a multiple of 2π. -/
lemma wrapDown_congr_physics (x : ℝ) :
    ∃ k : ℤ, Physics.wrapDown x = x - 2 * Real.pi * k := by
  unfold Physics.wrapDown
  split
  · obtain ⟨k, hk⟩ := wrapDown_congr_physics (x - 2 * Real.pi)
    refine ⟨k + 1, ?_⟩
    rw [hk]
    push_cast
    ring
  · refine ⟨0, ?_⟩
    push_cast
    ring
termination_by Nat.ceil ((x - Real.pi) / (2 * Real.pi) + 1)
decreasing_by exact wrapDown_measure_decreases x (by assumption)

/-- The physics add loop lands in `(-π, π]` whenever it starts at or
below π. -/
lemma wrapUp_mem_physics (x : ℝ) (hx : x ≤ Real.pi) :
    -Real.pi < Physics.wrapUp x ∧ Physics.wrapUp x ≤ Real.pi := by
  unfold Physics.wrapUp
  split
  · next h =>
      have hπ : (0 : ℝ) < Real.pi := Real.pi_pos
      exact wrapUp_mem_physics (x + 2 * Real.pi) (by linarith)
  · next h => exact ⟨not_le.mp h, hx⟩
termination_by Nat.ceil ((-Real.pi - x) / (2 * Real.pi) + 1)
decreasing_by exact wrapUp_measure_decreases x (by assumption)

/-- The physics add loop changes its input by a multiple of 2π. -/
lemma wrapUp_congr_physics (x : ℝ) :
    ∃ k : ℤ, Physics.wrapUp x = x + 2 * Real.pi * k := by
  unfold Physics.wrapUp
  split
  · obtain ⟨k, hk⟩ := wrapUp_congr_physics (x + 2 * Real.pi)
    refine ⟨k + 1, ?_⟩
    rw [hk]
    push_cast
    ring
  · refine ⟨0, ?_⟩
    push_cast
    ring
termination_by Nat.ceil ((-Real.pi - x) / (2 * Real.pi) + 1)
decreasing_by exact wrapUp_measure_decreases x (by assumption)

/-- The physics `wrapTheta` lands in `(-π, π]`. -/
lemma wrapTheta_mem_Ioc_physics (x : ℝ) :
    Physics.wrapTheta x ∈ Set.Ioc (-Real.pi) Real.pi := by
  have h := wrapUp_mem_physics (Physics.wrapDown x) (wrapDown_le_physics x)
  exact ⟨h.1, h.2⟩

/-- The physics `wrapTheta` is congruent to its input modulo 2π. -/
lemma wrapTheta_congr_physics (x : ℝ) :
    ∃ k : ℤ, Physics.wrapTheta x = x - 2 * Real.pi * k := by
  obtain ⟨k1, h1⟩ := wrapDown_congr_physics x
  obtain ⟨k2, h2⟩ := wrapUp_congr_physics (Physics.wrapDown x)
  refine ⟨k1 - k2, ?_⟩
  unfold Physics.wrapTheta
  rw [h2, h1]
  push_cast
  ring

/-- Two values of `(-π, π]` that differ by an integer multiple of 2π are
equal. -/
lemma eq_of_mem_Ioc_congr (a b : ℝ) (ha : a ∈ Set.Ioc (-Real.pi) Real.pi)
    (hb : b ∈ Set.Ioc (-Real.pi) Real.pi) (m : ℤ)
    (hm : a - b = 2 * Real.pi * m) : a = b := by
  have hπ : (0 : ℝ) < Real.pi := Real.pi_pos
  obtain ⟨ha1, ha2⟩ := ha
  obtain ⟨hb1, hb2⟩ := hb
  have hm0 : m = 0 := by
    by_contra hne
    have h1 : (1 : ℝ) ≤ |(m : ℝ)| := by
      have := Int.one_le_abs hne
      calc (1 : ℝ) = ((1 : ℤ) : ℝ) := by norm_num
        _ ≤ ((|m| : ℤ) : ℝ) := by exact_mod_cast this
        _ = |(m : ℝ)| := by push_cast; rfl
    have habs : |a - b| < 2 * Real.pi := by
      rw [abs_sub_lt_iff]
      constructor <;> linarith
    rw [hm, abs_mul, abs_of_pos (by positivity : (0 : ℝ) < 2 * Real.pi)]
      at habs
    nlinarith
  rw [hm0] at hm
  push_cast at hm
  linarith

/-- The physics `wrapTheta` is 2π-periodic. -/
lemma wrapTheta_periodic_physics (x : ℝ) (k : ℤ) :
    Physics.wrapTheta (x + 2 * Real.pi * k) = Physics.wrapTheta x := by
  obtain ⟨k1, h1⟩ := wrapTheta_congr_physics (x + 2 * Real.pi * k)
  obtain ⟨k2, h2⟩ := wrapTheta_congr_physics x
  refine eq_of_mem_Ioc_congr _ _ (wrapTheta_mem_Ioc_physics _)
    (wrapTheta_mem_Ioc_physics _) (k - k1 + k2) ?_
  rw [h1, h2]
  push_cast
  ring

/-- The store subtract loop never stops above π. -/
lemma wrapDown_le_store (x : ℝ) : Interaction.wrapDown x ≤ Real.pi := by
  unfold Interaction.wrapDown
  split
  · exact wrapDown_le_store (x - 2 * Real.pi)
  · next h => exact not_lt.mp h
termination_by Nat.ceil ((x - Real.pi) / (2 * Real.pi) + 1)
decreasing_by exact wrapDown_measure_decreases x (by assumption)

/-- The store add loop lands in `[-π, π]` whenever it starts at or below π. -/
lemma wrapUp_mem_store (x : ℝ) (hx : x ≤ Real.pi) :
    -Real.pi ≤ Interaction.wrapUp x ∧ Interaction.wrapUp x ≤ Real.pi := by
  unfold Interaction.wrapUp
  split
  · next h =>
      have hπ : (0 : ℝ) < Real.pi := Real.pi_pos
      exact wrapUp_mem_store (x + 2 * Real.pi) (by linarith)
  · next h => exact ⟨not_lt.mp h, hx⟩
termination_by Nat.ceil ((-Real.pi - x) / (2 * Real.pi) + 1)
decreasing_by exact wrapUp_measure_decreases x (le_of_lt (by assumption))

/-- The store `wrapTheta` lands in `[-π, π]`. -/
lemma wrapTheta_mem_Icc_store (x : ℝ) :
    Interaction.wrapTheta x ∈ Set.Icc (-Real.pi) Real.pi := by
  have h := wrapUp_mem_store (Interaction.wrapDown x) (wrapDown_le_store x)
  exact ⟨h.1, h.2⟩

/-- C5 counterexample: the interaction store's local `wrapTheta` maps `-π` to
itself, which lies outside `(-π, π]`, and it is not 2π-periodic there:
`wrapTheta(-π + 2π·1) = π ≠ -π = wrapTheta(-π)`. -/
theorem wrapTheta_store_boundary_counterexample :
    Interaction.wrapTheta (-Real.pi) = -Real.pi ∧
      Interaction.wrapTheta (-Real.pi) ∉ Set.Ioc (-Real.pi) Real.pi ∧
      Interaction.wrapTheta (-Real.pi + 2 * Real.pi * ((1 : ℤ) : ℝ)) ≠
        Interaction.wrapTheta (-Real.pi) := by
  have hπ : (0 : ℝ) < Real.pi := Real.pi_pos
  have hd : Interaction.wrapDown (-Real.pi) = -Real.pi := by
    unfold Interaction.wrapDown
    rw [dif_neg (by linarith : ¬ -Real.pi > Real.pi)]
  have hu : Interaction.wrapUp (-Real.pi) = -Real.pi := by
    unfold Interaction.wrapUp
    rw [dif_neg (by linarith : ¬ -Real.pi < -Real.pi)]
  have e1 : Interaction.wrapTheta (-Real.pi) = -Real.pi := by
    unfold Interaction.wrapTheta
    rw [hd, hu]
  have harg : -Real.pi + 2 * Real.pi * ((1 : ℤ) : ℝ) = Real.pi := by
    push_cast
    ring
  have hpd : Interaction.wrapDown Real.pi = Real.pi := by
    unfold Interaction.wrapDown
    rw [dif_neg (by linarith : ¬ Real.pi > Real.pi)]
  have hpu : Interaction.wrapUp Real.pi = Real.pi := by
    unfold Interaction.wrapUp
    rw [dif_neg (by linarith : ¬ Real.pi < -Real.pi)]
  have e2 : Interaction.wrapTheta Real.pi = Real.pi := by
    unfold Interaction.wrapTheta
    rw [hpd, hpu]
  refine ⟨e1, ?_, ?_⟩
  · intro hmem
    have := hmem.1
    rw [e1] at this
    exact lt_irrefl _ this
  · rw [harg, e1, e2]
    intro heq
    linarith

/-! ### Interaction store
Source: `src/components/sections/Hero/state/interactionStore.ts` (appended to
`state/heroStore.ts` in the provided sources).  The Zustand store is embedded
as a record `InteractionStoreState` and each action becomes a pure state
transformer.  The `setConfig`, zoom and focus actions are not needed by the
claims and are omitted. -/

namespace Interaction

/-- Finite-state machine states of the interaction store. -/
inductive InteractionState where
  | IDLE
  | DRAGGING
  | INERTIA
deriving DecidableEq

/-- `CameraSpherical`: spherical camera coordinates in radians. -/
structure CameraSpherical where
  theta : ℝ
  phi : ℝ

/-- `InteractionConfig`: sensitivity, damping and bound parameters. -/
structure InteractionConfig where
  dragSensitivity : ℝ
  damping : ℝ
  minZoom : ℝ
  maxZoom : ℝ
  minElevationDeg : ℝ
  maxElevationDeg : ℝ

/-- Angular velocity record `{theta, phi}` in rad/s. -/
structure AngularVelocity where
  theta : ℝ
  phi : ℝ

/-- The interaction store's state fields. -/
structure InteractionStoreState where
  state : InteractionState
  current : CameraSpherical
  target : CameraSpherical
  zoom : ℝ
  targetZoom : ℝ
  velocity : AngularVelocity
  lastTs : Option ℝ
  isPointerCaptured : Bool
  isKeyboardFocused : Bool
  config : InteractionConfig

/-- `DEFAULT_CONFIG` of the interaction store. -/
def DEFAULT_CONFIG : InteractionConfig :=
  { dragSensitivity := 0.5
    damping := 0.95
    minZoom := 2
    maxZoom := 10
    minElevationDeg := -60
    maxElevationDeg := 60 }

/-- `DRAG_SENSITIVITY_TO_RAD_PER_PX = 0.005`. -/
def DRAG_SENSITIVITY_TO_RAD_PER_PX : ℝ := 0.005

/-- `VELOCITY_EPSILON = 1e-4` rad/s. -/
def VELOCITY_EPSILON : ℝ := 1e-4

/-- `KEYBOARD_NUDGE_SPEED = 1.0` rad/s. -/
def KEYBOARD_NUDGE_SPEED : ℝ := 1.0

/-- `degToRad(deg) = deg * π / 180`. -/
def degToRad (deg : ℝ) : ℝ :=
  deg * Real.pi / 180

/-- `clamp(value, min, max) = Math.min(Math.max(value, min), max)`. -/
def clamp (value lo hi : ℝ) : ℝ :=
  min (max value lo) hi

/-- `isNearZero(velocity)`: both components below `VELOCITY_EPSILON` in
magnitude. -/
def isNearZero (velocity : AngularVelocity) : Prop :=
  |velocity.theta| < VELOCITY_EPSILON ∧ |velocity.phi| < VELOCITY_EPSILON

/-- Elevation limits record computed by `getElevationLimits`. -/
structure ElevationLimits where
  minPhi : ℝ
  maxPhi : ℝ

/-- `getElevationLimits(config)`: elevation bounds in radians. -/
def getElevationLimits (config : InteractionConfig) : ElevationLimits :=
  { minPhi := degToRad config.minElevationDeg
    maxPhi := degToRad config.maxElevationDeg }

/-- The store's `initialState` object. -/
def initialState : InteractionStoreState :=
  { state := InteractionState.IDLE
    current := { theta := 0, phi := 0 }
    target := { theta := 0, phi := 0 }
    zoom := 4
    targetZoom := 4
    velocity := { theta := 0, phi := 0 }
    lastTs := none
    isPointerCaptured := false
    isKeyboardFocused := false
    config := DEFAULT_CONFIG }

/-- `beginDrag(ts)`: enter DRAGGING, record the timestamp, zero velocity. -/
def beginDrag (ts : ℝ) (s : InteractionStoreState) : InteractionStoreState :=
  { s with
    state := InteractionState.DRAGGING
    lastTs := some ts
    velocity := { theta := 0, phi := 0 } }

/-- `updateDrag(dxPx, dyPx, dtMs)`: convert pixel deltas to angular deltas,
wrap/clamp the target, and recompute the instantaneous velocity with the
elapsed-seconds divisor floored at `1e-6`. -/
def updateDrag (dxPx dyPx dtMs : ℝ) (s : InteractionStoreState) :
    InteractionStoreState :=
  let limits := getElevationLimits s.config
  let radPerPx := s.config.dragSensitivity * DRAG_SENSITIVITY_TO_RAD_PER_PX
  let dTheta := -dxPx * radPerPx
  let dPhi := dyPx * radPerPx
  let newTarget : CameraSpherical :=
    { theta := wrapTheta (s.target.theta + dTheta)
      phi := clamp (s.target.phi + dPhi) limits.minPhi limits.maxPhi }
  let dtSec := max (dtMs / 1000) 1e-6
  let velocity : AngularVelocity :=
    { theta := dTheta / dtSec, phi := dPhi / dtSec }
  { s with target := newTarget, velocity := velocity }

/-- `endDrag(ts)`: go to IDLE when the velocity is negligible, else to
INERTIA recording the timestamp. -/
def endDrag (ts : ℝ) (s : InteractionStoreState) : InteractionStoreState :=
  if isNearZero s.velocity then
    { s with state := InteractionState.IDLE }
  else
    { s with state := InteractionState.INERTIA, lastTs := some ts }

/-- `tickInertia(dtMs)`: no-op unless in INERTIA; otherwise damp the velocity
by `damping ^ (dtMs / 16.67)`, integrate it into the target (wrapping theta,
clamping phi), and either snap to IDLE with zero velocity when the damped
velocity is negligible or stay in INERTIA. -/
def tickInertia (dtMs : ℝ) (s : InteractionStoreState) :
    InteractionStoreState :=
  if s.state ≠ InteractionState.INERTIA then s
  else
    let limits := getElevationLimits s.config
    let dtSec := dtMs / 1000
    let dampingFactor := s.config.damping ^ (dtMs / 16.67)
    let newVelocity : AngularVelocity :=
      { theta := s.velocity.theta * dampingFactor
        phi := s.velocity.phi * dampingFactor }
    let newTarget : CameraSpherical :=
      { theta := wrapTheta (s.target.theta + newVelocity.theta * dtSec)
        phi := clamp (s.target.phi + newVelocity.phi * dtSec)
          limits.minPhi limits.maxPhi }
    if isNearZero newVelocity then
      { s with
        state := InteractionState.IDLE
        target := newTarget
        velocity := { theta := 0, phi := 0 } }
    else
      { s with target := newTarget, velocity := newVelocity }

/-- `nudgeOrbitFromKeys(xDir, yDir, dtMs)`: no-op for `(0, 0)`; otherwise
advance the target by `speed * dtSec` per axis, set a synthetic velocity, and
move IDLE to INERTIA. -/
def nudgeOrbitFromKeys (xDir yDir : ℤ) (dtMs : ℝ)
    (s : InteractionStoreState) : InteractionStoreState :=
  if xDir = 0 ∧ yDir = 0 then s
  else
    let limits := getElevationLimits s.config
    let dtSec := dtMs / 1000
    let speed := KEYBOARD_NUDGE_SPEED * s.config.dragSensitivity
    let dTheta := -(xDir : ℝ) * speed * dtSec
    let dPhi := (yDir : ℝ) * speed * dtSec
    let newTarget : CameraSpherical :=
      { theta := wrapTheta (s.target.theta + dTheta)
        phi := clamp (s.target.phi + dPhi) limits.minPhi limits.maxPhi }
    let newVelocity : AngularVelocity :=
      { theta := dTheta / dtSec, phi := dPhi / dtSec }
    { s with
      target := newTarget
      velocity := newVelocity
      state := if s.state = InteractionState.IDLE then
          InteractionState.INERTIA
        else s.state }

/-- One drag/inertia interaction event, with its arguments. -/
inductive Act where
  | beginDrag (ts : ℝ)
  | updateDrag (dxPx dyPx dtMs : ℝ)
  | endDrag (ts : ℝ)
  | tickInertia (dtMs : ℝ)
  | nudgeOrbitFromKeys (xDir yDir : ℤ) (dtMs : ℝ)

/-- Dispatch one event to the corresponding store action. -/
def applyAct (a : Act) (s : InteractionStoreState) : InteractionStoreState :=
  match a with
  | .beginDrag ts => beginDrag ts s
  | .updateDrag dx dy dt => updateDrag dx dy dt s
  | .endDrag ts => endDrag ts s
  | .tickInertia dt => tickInertia dt s
  | .nudgeOrbitFromKeys x y dt => nudgeOrbitFromKeys x y dt s

/-- Run a finite sequence of interaction events from a starting state. -/
def run (acts : List Act) (s : InteractionStoreState) :
    InteractionStoreState :=
  acts.foldl (fun st a => applyAct a st) s

end Interaction

/-- C5 (amended): the physics `wrapTheta` satisfies both laws — its value
lies in `(-π, π]` and it is invariant under shifts by `2πk` — while the
interaction store's local copy only lands in the closed interval `[-π, π]`
(it maps `-π` to itself). -/
theorem wrapTheta_laws_amended :
    (∀ theta : ℝ, Physics.wrapTheta theta ∈ Set.Ioc (-Real.pi) Real.pi) ∧
      (∀ (theta : ℝ) (k : ℤ),
        Physics.wrapTheta (theta + 2 * Real.pi * k) =
          Physics.wrapTheta theta) ∧
      (∀ theta : ℝ,
        Interaction.wrapTheta theta ∈ Set.Icc (-Real.pi) Real.pi) :=
  ⟨wrapTheta_mem_Ioc_physics, wrapTheta_periodic_physics,
    wrapTheta_mem_Icc_store⟩

/-- C3: `endDrag` keeps the velocity untouched, lands in IDLE exactly when
both velocity components are below `1e-4` rad/s in magnitude, lands in
INERTIA exactly otherwise, and never lands in DRAGGING. -/
theorem endDrag_post_state (s : Interaction.InteractionStoreState) (ts : ℝ) :
    (Interaction.endDrag ts s).velocity = s.velocity ∧
      ((Interaction.endDrag ts s).state = Interaction.InteractionState.IDLE ↔
        |s.velocity.theta| < 1e-4 ∧ |s.velocity.phi| < 1e-4) ∧
      ((Interaction.endDrag ts s).state =
          Interaction.InteractionState.INERTIA ↔
        ¬ (|s.velocity.theta| < 1e-4 ∧ |s.velocity.phi| < 1e-4)) ∧
      (Interaction.endDrag ts s).state ≠
        Interaction.InteractionState.DRAGGING := by
  have he : Interaction.isNearZero s.velocity ↔
      (|s.velocity.theta| < 1e-4 ∧ |s.velocity.phi| < 1e-4) := Iff.rfl
  by_cases h : Interaction.isNearZero s.velocity
  · simp [Interaction.endDrag, h, he.mp h]
  · simp [Interaction.endDrag, h, he.not.mp h]

/-- C9: `updateDrag` computes both velocity components as the angular delta
divided by an elapsed-seconds divisor that is floored at `1e-6`, hence the
divisor is positive and never zero for any `dtMs`, including zero and
negative values. -/
theorem updateDrag_divisor_floored (s : Interaction.InteractionStoreState)
    (dxPx dyPx dtMs : ℝ) :
    (Interaction.updateDrag dxPx dyPx dtMs s).velocity.theta =
        (-dxPx * (s.config.dragSensitivity *
          Interaction.DRAG_SENSITIVITY_TO_RAD_PER_PX)) /
          max (dtMs / 1000) 1e-6 ∧
      (Interaction.updateDrag dxPx dyPx dtMs s).velocity.phi =
        (dyPx * (s.config.dragSensitivity *
          Interaction.DRAG_SENSITIVITY_TO_RAD_PER_PX)) /
          max (dtMs / 1000) 1e-6 ∧
      (1e-6 : ℝ) ≤ max (dtMs / 1000) 1e-6 ∧
      max (dtMs / 1000) 1e-6 ≠ 0 := by
  refine ⟨rfl, rfl, le_max_right _ _, ?_⟩
  have hpos : (0 : ℝ) < max (dtMs / 1000) 1e-6 :=
    lt_of_lt_of_le (by norm_num) (le_max_right _ _)
  exact ne_of_gt hpos

/-- C10: when the machine is not in INERTIA, `tickInertia` returns the store
state unchanged — every field included. -/
theorem tickInertia_noop_when_not_inertia
    (s : Interaction.InteractionStoreState) (dtMs : ℝ)
    (h : s.state ≠ Interaction.InteractionState.INERTIA) :
    Interaction.tickInertia dtMs s = s := by
  unfold Interaction.tickInertia
  rw [if_pos h]

/-- C10 witness: the no-op theorem applied to the store's initial state
(which is IDLE) with a 16 ms tick. -/
theorem tickInertia_noop_when_not_inertia_witness :
    Interaction.tickInertia 16 Interaction.initialState =
      Interaction.initialState :=
  tickInertia_noop_when_not_inertia Interaction.initialState 16
    (by simp [Interaction.initialState])

/-- Each interaction event preserves the store config and keeps the target
elevation inside the configured radian bounds. -/
lemma phi_invariant_step (a : Interaction.Act)
    (s : Interaction.InteractionStoreState)
    (h1 : Interaction.degToRad s.config.minElevationDeg ≤ s.target.phi)
    (h2 : s.target.phi ≤ Interaction.degToRad s.config.maxElevationDeg) :
    (Interaction.applyAct a s).config = s.config ∧
      Interaction.degToRad s.config.minElevationDeg ≤
        (Interaction.applyAct a s).target.phi ∧
      (Interaction.applyAct a s).target.phi ≤
        Interaction.degToRad s.config.maxElevationDeg := by
  have hlohi : Interaction.degToRad s.config.minElevationDeg ≤
      Interaction.degToRad s.config.maxElevationDeg := le_trans h1 h2
  have hcl : ∀ v : ℝ,
      Interaction.degToRad s.config.minElevationDeg ≤
        Interaction.clamp v (Interaction.degToRad s.config.minElevationDeg)
          (Interaction.degToRad s.config.maxElevationDeg) ∧
      Interaction.clamp v (Interaction.degToRad s.config.minElevationDeg)
          (Interaction.degToRad s.config.maxElevationDeg) ≤
        Interaction.degToRad s.config.maxElevationDeg := by
    intro v
    exact ⟨le_min (le_max_right v _) hlohi, min_le_right _ _⟩
  cases a with
  | beginDrag ts =>
      exact ⟨rfl, h1, h2⟩
  | updateDrag dx dy dt =>
      exact ⟨rfl, (hcl _).1, (hcl _).2⟩
  | endDrag ts =>
      by_cases h : Interaction.isNearZero s.velocity <;>
        simp [Interaction.applyAct, Interaction.endDrag, h, h1, h2]
  | tickInertia dt =>
      by_cases hst : s.state ≠ Interaction.InteractionState.INERTIA
      · simp [Interaction.applyAct, Interaction.tickInertia, hst, h1, h2]
      · by_cases hz : Interaction.isNearZero
            { theta := s.velocity.theta * s.config.damping ^ (dt / 16.67)
              phi := s.velocity.phi * s.config.damping ^ (dt / 16.67) } <;>
          simp [Interaction.applyAct, Interaction.tickInertia,
            Interaction.getElevationLimits, hst, hz, (hcl _).1, (hcl _).2]
  | nudgeOrbitFromKeys x y dt =>
      by_cases hxy : x = 0 ∧ y = 0
      · simp [Interaction.applyAct, Interaction.nudgeOrbitFromKeys, hxy, h1,
          h2]
      · simp [Interaction.applyAct, Interaction.nudgeOrbitFromKeys,
          Interaction.getElevationLimits, hxy, (hcl _).1, (hcl _).2]

/-- Running any event sequence preserves the store config and the elevation
bounds on the target. -/
lemma run_phi_invariant (acts : List Interaction.Act) :
    ∀ s : Interaction.InteractionStoreState,
      Interaction.degToRad s.config.minElevationDeg ≤ s.target.phi →
      s.target.phi ≤ Interaction.degToRad s.config.maxElevationDeg →
      (Interaction.run acts s).config = s.config ∧
        Interaction.degToRad s.config.minElevationDeg ≤
          (Interaction.run acts s).target.phi ∧
        (Interaction.run acts s).target.phi ≤
          Interaction.degToRad s.config.maxElevationDeg := by
  induction acts with
  | nil =>
      intro s h1 h2
      exact ⟨rfl, h1, h2⟩
  | cons a rest ih =>
      intro s h1 h2
      obtain ⟨hc, hl, hu⟩ := phi_invariant_step a s h1 h2
      have h1a : Interaction.degToRad
          (Interaction.applyAct a s).config.minElevationDeg ≤
          (Interaction.applyAct a s).target.phi := by
        rw [hc]; exact hl
      have h2a : (Interaction.applyAct a s).target.phi ≤
          Interaction.degToRad
            (Interaction.applyAct a s).config.maxElevationDeg := by
        rw [hc]; exact hu
      obtain ⟨hc2, hl2, hu2⟩ := ih (Interaction.applyAct a s) h1a h2a
      have hrun : Interaction.run (a :: rest) s =
          Interaction.run rest (Interaction.applyAct a s) := rfl
      rw [hrun, hc] at *
      exact ⟨hc2, hl2, hu2⟩

/-- C2: starting from the store's initial state (target elevation 0) under a
fixed config whose radian elevation bounds contain 0, every finite sequence
of beginDrag / updateDrag / endDrag / tickInertia / nudgeOrbitFromKeys events
with arbitrary arguments keeps the target elevation inside
`[minPhi, maxPhi]`. -/
theorem target_phi_stays_in_elevation_bounds
    (cfg : Interaction.InteractionConfig) (acts : List Interaction.Act)
    (hmin : Interaction.degToRad cfg.minElevationDeg ≤ 0)
    (hmax : 0 ≤ Interaction.degToRad cfg.maxElevationDeg) :
    Interaction.degToRad cfg.minElevationDeg ≤
      (Interaction.run acts
        { Interaction.initialState with config := cfg }).target.phi ∧
    (Interaction.run acts
        { Interaction.initialState with config := cfg }).target.phi ≤
      Interaction.degToRad cfg.maxElevationDeg := by
  obtain ⟨hc, hl, hu⟩ := run_phi_invariant acts
    { Interaction.initialState with config := cfg }
    (by simpa [Interaction.initialState] using hmin)
    (by simpa [Interaction.initialState] using hmax)
  exact ⟨by simpa using hl, by simpa using hu⟩

/-- C2 witness: the elevation-bound theorem applied to the default config and
a concrete drag-and-release event sequence. -/
theorem target_phi_stays_in_elevation_bounds_witness :
    Interaction.degToRad Interaction.DEFAULT_CONFIG.minElevationDeg ≤
      (Interaction.run
        [Interaction.Act.beginDrag 0, Interaction.Act.updateDrag 100 0 16,
          Interaction.Act.endDrag 16, Interaction.Act.tickInertia 16]
        { Interaction.initialState with
            config := Interaction.DEFAULT_CONFIG }).target.phi ∧
    (Interaction.run
        [Interaction.Act.beginDrag 0, Interaction.Act.updateDrag 100 0 16,
          Interaction.Act.endDrag 16, Interaction.Act.tickInertia 16]
        { Interaction.initialState with
            config := Interaction.DEFAULT_CONFIG }).target.phi ≤
      Interaction.degToRad Interaction.DEFAULT_CONFIG.maxElevationDeg :=
  target_phi_stays_in_elevation_bounds Interaction.DEFAULT_CONFIG
    [Interaction.Act.beginDrag 0, Interaction.Act.updateDrag 100 0 16,
      Interaction.Act.endDrag 16, Interaction.Act.tickInertia 16]
    (by
      show (-60 : ℝ) * Real.pi / 180 ≤ 0
      nlinarith [Real.pi_pos])
    (by
      show (0 : ℝ) ≤ 60 * Real.pi / 180
      positivity)

/-- C4: from INERTIA, with damping in `(0,1)` and a fixed positive `dtMs`,
iterating `tickInertia` reaches in finitely many steps a state that is IDLE
with velocity exactly `(0, 0)`. -/
theorem tickInertia_terminates (s : Interaction.InteractionStoreState)
    (dtMs : ℝ) (hstate : s.state = Interaction.InteractionState.INERTIA)
    (hd0 : 0 < s.config.damping) (hd1 : s.config.damping < 1)
    (hdt : 0 < dtMs) :
    ∃ N : ℕ,
      ((Interaction.tickInertia dtMs)^[N] s).state =
        Interaction.InteractionState.IDLE ∧
      ((Interaction.tickInertia dtMs)^[N] s).velocity =
        { theta := 0, phi := 0 } := by
  set f := s.config.damping ^ (dtMs / 16.67) with hfdef
  have hf0 : 0 < f := Real.rpow_pos_of_pos hd0 _
  have hf1 : f < 1 := Real.rpow_lt_one hd0.le hd1 (by positivity)
  have inv : ∀ n : ℕ,
      (((Interaction.tickInertia dtMs)^[n] s).state =
          Interaction.InteractionState.IDLE ∧
        ((Interaction.tickInertia dtMs)^[n] s).velocity =
          { theta := 0, phi := 0 }) ∨
      (((Interaction.tickInertia dtMs)^[n] s).state =
          Interaction.InteractionState.INERTIA ∧
        ((Interaction.tickInertia dtMs)^[n] s).velocity.theta =
          s.velocity.theta * f ^ n ∧
        ((Interaction.tickInertia dtMs)^[n] s).velocity.phi =
          s.velocity.phi * f ^ n ∧
        ((Interaction.tickInertia dtMs)^[n] s).config = s.config) := by
    intro n
    induction n with
    | zero =>
        right
        simp [hstate]
    | succ n ih =>
        rw [Function.iterate_succ_apply']
        set t := (Interaction.tickInertia dtMs)^[n] s with ht
        rcases ih with ⟨h1, h2⟩ | ⟨h1, h2, h3, h4⟩
        · left
          have hnoop : Interaction.tickInertia dtMs t = t := by
            unfold Interaction.tickInertia
            rw [if_pos (by rw [h1]; simp)]
          rw [hnoop]
          exact ⟨h1, h2⟩
        · by_cases hz : Interaction.isNearZero
              { theta := t.velocity.theta * t.config.damping ^ (dtMs / 16.67)
                phi := t.velocity.phi * t.config.damping ^ (dtMs / 16.67) }
          · left
            constructor <;> simp [Interaction.tickInertia, h1, hz]
          · right
            refine ⟨?_, ?_, ?_, ?_⟩
            · simp [Interaction.tickInertia, h1, hz]
            · simp only [Interaction.tickInertia, h1, hz]
              simp [h1, hz, h2, h4, ← hfdef, pow_succ, mul_assoc]
            · simp only [Interaction.tickInertia, h1, hz]
              simp [h1, hz, h3, h4, ← hfdef, pow_succ, mul_assoc]
            · simp [Interaction.tickInertia, h1, hz]
              exact h4
  have hM : (0 : ℝ) < |s.velocity.theta| + |s.velocity.phi| + 1 := by
    positivity
  have hEps : (0 : ℝ) < Interaction.VELOCITY_EPSILON := by
    norm_num [Interaction.VELOCITY_EPSILON]
  obtain ⟨n, hn⟩ := exists_pow_lt_of_lt_one (div_pos hEps hM) hf1
  rcases inv n with ⟨h1, h2⟩ | ⟨h1, h2, h3, h4⟩
  · exact ⟨n, h1, h2⟩
  · have hfn0 : (0 : ℝ) ≤ f ^ n := (pow_pos hf0 n).le
    have hstep : f ^ (n + 1) ≤ f ^ n := by
      rw [pow_succ]
      exact mul_le_of_le_one_right hfn0 hf1.le
    have hsmall : ∀ c : ℝ, |c| ≤ |s.velocity.theta| + |s.velocity.phi| →
        |c * f ^ (n + 1)| < Interaction.VELOCITY_EPSILON := by
      intro c hc
      rw [abs_mul, abs_of_nonneg (pow_nonneg hf0.le _)]
      calc |c| * f ^ (n + 1) ≤ |c| * f ^ n :=
            mul_le_mul_of_nonneg_left hstep (abs_nonneg _)
        _ ≤ (|s.velocity.theta| + |s.velocity.phi| + 1) * f ^ n := by
            apply mul_le_mul_of_nonneg_right _ hfn0
            linarith
        _ < (|s.velocity.theta| + |s.velocity.phi| + 1) *
              (Interaction.VELOCITY_EPSILON /
                (|s.velocity.theta| + |s.velocity.phi| + 1)) :=
            mul_lt_mul_of_pos_left hn hM
        _ = Interaction.VELOCITY_EPSILON := mul_div_cancel₀ _ hM.ne'
    refine ⟨n + 1, ?_⟩
    rw [Function.iterate_succ_apply']
    set t := (Interaction.tickInertia dtMs)^[n] s with ht
    have hzv : Interaction.isNearZero
        { theta := t.velocity.theta * t.config.damping ^ (dtMs / 16.67)
          phi := t.velocity.phi * t.config.damping ^ (dtMs / 16.67) } := by
      refine ⟨?_, ?_⟩
      · show |t.velocity.theta * t.config.damping ^ (dtMs / 16.67)| <
          Interaction.VELOCITY_EPSILON
        rw [h2, h4, ← hfdef, mul_assoc, ← pow_succ]
        exact hsmall _ (by
          have := abs_nonneg s.velocity.phi
          calc |s.velocity.theta| ≤ |s.velocity.theta| := le_refl _
            _ ≤ |s.velocity.theta| + |s.velocity.phi| := by linarith)
      · show |t.velocity.phi * t.config.damping ^ (dtMs / 16.67)| <
          Interaction.VELOCITY_EPSILON
        rw [h3, h4, ← hfdef, mul_assoc, ← pow_succ]
        exact hsmall _ (by
          have := abs_nonneg s.velocity.theta
          linarith)
    constructor <;> simp [Interaction.tickInertia, h1, hzv]

/-- C4 witness: the termination theorem applied to a concrete INERTIA state
with default config (damping 0.95) and unit starting velocity, ticked at a
fixed 16 ms. -/
theorem tickInertia_terminates_witness :
    ∃ N : ℕ,
      ((Interaction.tickInertia 16)^[N]
        { Interaction.initialState with
            state := Interaction.InteractionState.INERTIA
            velocity := { theta := 1, phi := 1 } }).state =
        Interaction.InteractionState.IDLE ∧
      ((Interaction.tickInertia 16)^[N]
        { Interaction.initialState with
            state := Interaction.InteractionState.INERTIA
            velocity := { theta := 1, phi := 1 } }).velocity =
        { theta := 0, phi := 0 } :=
  tickInertia_terminates
    { Interaction.initialState with
        state := Interaction.InteractionState.INERTIA
        velocity := { theta := 1, phi := 1 } }
    16 rfl
    (by norm_num [Interaction.initialState, Interaction.DEFAULT_CONFIG])
    (by norm_num [Interaction.initialState, Interaction.DEFAULT_CONFIG])
    (by norm_num)

/-! ### Deterministic starfield generation
Source: `src/components/sections/Hero/Starfield.tsx`.  The Park–Miller
linear-congruential generator closure is embedded as explicit integer-state
threading (`%` on JavaScript integers is the truncated remainder, `Int.tmod`);
the Marsaglia rejection loop is bounded by an explicit fuel parameter, since
its runtime depends on the generator orbit — for fixed fuel the embedding
follows the source loop exactly until the loop exits. -/

namespace Starfield

/-- A generated 3D star position. -/
structure Vec3 where
  x : ℝ
  y : ℝ
  z : ℝ

/-- `createSeededRandom(seed)`: seed normalization
`state = seed % 2147483647; if (state <= 0) state += 2147483646` — the
returned value is the state captured by the closure. -/
def createSeededRandom (seed : ℤ) : ℤ :=
  let state := seed.tmod 2147483647
  if state ≤ 0 then state + 2147483646 else state

/-- One LCG state update: `state = (state * 16807) % 2147483647`. -/
def lcgNext (state : ℤ) : ℤ :=
  (state * 16807).tmod 2147483647

/-- The closure's return value: `(state - 1) / 2147483646 ∈ [0, 1)`. -/
def lcgOut (state : ℤ) : ℝ :=
  ((state : ℝ) - 1) / 2147483646

/-- One call of the random closure: advance the state, emit the output. -/
def randStep (state : ℤ) : ℝ × ℤ :=
  let s := lcgNext state
  (lcgOut s, s)

/-- The do-while Marsaglia rejection loop: draw `x1, x2 ∈ [-1, 1)`, retry
while `w = x1² + x2² ≥ 1`; the fuel bounds the number of retries. -/
def marsagliaLoop (fuel : ℕ) (state : ℤ) : (ℝ × ℝ × ℝ) × ℤ :=
  let r1 := randStep state
  let r2 := randStep r1.2
  let x1 := 2 * r1.1 - 1
  let x2 := 2 * r2.1 - 1
  let w := x1 * x1 + x2 * x2
  if w < 1 then ((x1, x2, w), r2.2)
  else
    match fuel with
    | 0 => ((x1, x2, w), r2.2)
    | n + 1 => marsagliaLoop n r2.2

/-- The body of one iteration of the generation loop: one star position and
the updated generator state. -/
def genPoint (fuel : ℕ) (radius : ℝ) (state : ℤ) : Vec3 × ℤ :=
  let m := marsagliaLoop fuel state
  let x1 := m.1.1
  let x2 := m.1.2.1
  let w := m.1.2.2
  let sqrtW := Real.sqrt ((-2 * Real.log w) / w)
  let y := x1 * sqrtW
  let z := x2 * sqrtW
  let r3 := randStep m.2
  let x := 2 * r3.1 - 1
  let length := Real.sqrt (x * x + y * y + z * z)
  let r4 := randStep r3.2
  let r := radius * r4.1 ^ ((1 : ℝ) / 3)
  ({ x := x / length * r, y := y / length * r, z := z / length * r }, r4.2)

/-- `generateStarPositions(count, radius, random)`: the ordered sequence of
`count` star positions produced by threading the generator state. -/
def generateStarPositions (count : ℕ) (radius : ℝ) (fuel : ℕ)
    (state : ℤ) : List Vec3 :=
  match count with
  | 0 => []
  | n + 1 =>
      let p := genPoint fuel radius state
      p.1 :: generateStarPositions n radius fuel p.2

end Starfield

/-- The generation loop emits exactly `count` positions, in order. -/
lemma generateStarPositions_length (count : ℕ) (radius : ℝ) (fuel : ℕ) :
    ∀ state : ℤ,
      (Starfield.generateStarPositions count radius fuel state).length =
        count := by
  induction count with
  | zero =>
      intro state
      rfl
  | succ n ih =>
      intro state
      simp [Starfield.generateStarPositions, ih]

/-- C6: star generation is deterministic — two independent generator
instances created from the same seed produce identical position sequences of
the expected length, element for element and in the same order. -/
theorem generateStarPositions_deterministic (count : ℕ) (radius : ℝ)
    (seed : ℤ) (fuel : ℕ) :
    Starfield.generateStarPositions count radius fuel
        (Starfield.createSeededRandom seed) =
      Starfield.generateStarPositions count radius fuel
        (Starfield.createSeededRandom seed) ∧
    (∀ i : ℕ,
      (Starfield.generateStarPositions count radius fuel
        (Starfield.createSeededRandom seed)).get? i =
      (Starfield.generateStarPositions count radius fuel
        (Starfield.createSeededRandom seed)).get? i) ∧
    (Starfield.generateStarPositions count radius fuel
        (Starfield.createSeededRandom seed)).length = count :=
  ⟨rfl, fun _ => rfl, generateStarPositions_length count radius fuel _⟩

end Portfolio
